import Mathlib

/-!
Shallow embedding of the two JSON-RPC-over-stdio servers of the
ioehub-mcp-time-server repository:

  - src/mcp-time-server.js : definitions prefixed `Mcp.`
  - src/ioehub-time.js     : definitions prefixed `Ioehub.`

Each request handler is modelled as a pure function from its inputs (the
parsed message, the sampled clock values) to the list of observable effects
it performs, in program order: lines written to the response stream
(stdout), diagnostic lines written to stderr or the log file, process-exit
calls, and timer bookkeeping.  A handler that can raise a JavaScript
exception returns a `JsOutcome`, recording the effects emitted before the
throw; the line handler models the surrounding try/catch.
-/

/-- JSON values as produced by JSON.parse: null, booleans, numbers
(the integer subset suffices for every value these servers compute),
strings, arrays and objects.  Objects are association lists; JSON.parse
keeps the last binding of a duplicated key, so parsed objects have
distinct keys and first-match lookup is faithful. -/
inductive Json where
  | null : Json
  | bool : Bool → Json
  | num : Int → Json
  | str : String → Json
  | arr : List Json → Json
  | obj : List (String × Json) → Json

/-- JavaScript property read `v[k]` on a parsed JSON value, for the
non-throwing cases: a key lookup on an object, and `undefined` (modelled
as `none`) on arrays and primitives.  Reads on null or undefined throw in
JavaScript; the handlers below model those throws explicitly before any
call to `get`. -/
def Json.get : Json → String → Option Json
  | .obj fields, k => fields.lookup k
  | _, _ => none

/-- JavaScript truthiness of a parsed JSON value: null, false, 0 and the
empty string are falsy, everything else (including empty arrays and
objects) is truthy. -/
def jsTruthy : Json → Bool
  | .null => false
  | .bool b => b
  | .num n => n != 0
  | .str s => s != ""
  | _ => true

/-- JavaScript `typeof v` equals the string "object": true for null,
arrays and objects, false for booleans, numbers and strings. -/
def isJsObject : Json → Bool
  | .null => true
  | .arr _ => true
  | .obj _ => true
  | _ => false

/-- Truthiness of a possibly-undefined value: `undefined` (none) is
falsy, otherwise JavaScript truthiness of the value. -/
def truthyOpt : Option Json → Bool
  | none => false
  | some j => jsTruthy j

mutual

/-- JavaScript string coercion of a parsed JSON value, as used by
template literals: null prints "null", booleans and numbers print
themselves, strings are unchanged, arrays join their elements with commas
(null elements print as the empty string), objects print
"[object Object]". -/
def Json.jsDisplay : Json → String
  | .null => "null"
  | .bool b => if b then "true" else "false"
  | .num n => toString n
  | .str s => s
  | .arr xs => jsDisplayList xs
  | .obj _ => "[object Object]"

/-- Comma join of the JavaScript string coercions of the elements of an
array, with null elements rendered as the empty string. -/
def jsDisplayList : List Json → String
  | [] => ""
  | [x] => (match x with | .null => "" | j => Json.jsDisplay j)
  | x :: y :: xs =>
      (match x with | .null => "" | j => Json.jsDisplay j) ++ "," ++
        jsDisplayList (y :: xs)

end

/-- JavaScript string coercion of a possibly-undefined value: undefined
prints "undefined". -/
def jsDisplayOpt : Option Json → String
  | none => "undefined"
  | some j => j.jsDisplay

/-- An action scheduled with setTimeout: either a later process exit with
the given code, or a purely diagnostic action. -/
inductive Scheduled where
  | exitProcess : Nat → Scheduled
  | logOnly : Scheduled

/-- One observable effect of a handler, in program order.

`respond id result` and `respondError id code message dataVal` are the
serialized JSON-RPC lines written to stdout; the object also carries the
constant field jsonrpc = "2.0".  `id = none` models a request id that was
undefined, which JSON.stringify drops from the output object (the id key
is absent from the wire line); `id = some Json.null` models a literal
null id.  Likewise `dataVal = none` models an absent data field.

`log msg` is a diagnostic line written to stderr (and, in ioehub-time.js,
teed to the log file with a timestamp prefix); where the source splices
runtime values produced by JSON.stringify or exception text into the
message, only the static part of the message before the splice is
recorded, since no claim depends on that text.

`schedule delay act` is a setTimeout registration, `exitNow code` is a
direct process.exit call, and the remaining constructors are the
keep-alive timer bookkeeping calls of the two files (start or clear the
heartbeat interval, reset the self-renewing keep-alive timeout, resume
stdin). -/
inductive Effect where
  | respond : Option Json → Json → Effect
  | respondError : Option Json → Int → String → Option Json → Effect
  | log : String → Effect
  | schedule : Nat → Scheduled → Effect
  | exitNow : Nat → Effect
  | startKeepAlive : Effect
  | stopKeepAlive : Effect
  | resetKeepAlive : Effect
  | resumeStdin : Effect

/-- An effect that ends or schedules the end of the process: a direct
process.exit call or a setTimeout whose action is a process exit. -/
def Effect.isTermination : Effect → Bool
  | .exitNow _ => true
  | .schedule _ (.exitProcess _) => true
  | _ => false

/-- An effect that writes a result response line to stdout. -/
def Effect.isResult : Effect → Bool
  | .respond _ _ => true
  | _ => false

/-- Outcome of running a JavaScript handler: normal completion with the
emitted effects, or an exception thrown after the recorded effects. -/
inductive JsOutcome where
  | ok : List Effect → JsOutcome
  | threw : List Effect → JsOutcome

/-- The rendering functions of the JavaScript Date object used by the
time payload, and the inverse parse of the ISO rendering.  A Date stores
an integer count of milliseconds since the epoch; each rendering method
is a pure function of that count (together with the fixed process locale
and timezone), so the runtime is modelled as a bundle of functions from
the millisecond count.  `toISOString` prints the instant down to the
millisecond, so parsing its output recovers the count; theorems that need
this take it as a pointwise hypothesis on the environment. -/
structure DateEnv where
  toISOString : Nat → String
  toLocaleString : Nat → String
  toUTCString : Nat → String
  toDateString : Nat → String
  toTimeString : Nat → String
  parseIso : String → Option Nat

/-- Parse a nonempty all-digit string as a decimal natural number. -/
def decimalNat? (s : String) : Option Nat :=
  if !s.data.isEmpty && s.data.all Char.isDigit then
    some (s.data.foldl (fun acc c => acc * 10 + (c.toNat - 48)) 0)
  else none

/-- A concrete DateEnv for closed evaluations: every rendering prints the
millisecond count in decimal and the parse reads it back.  Only the
roundtrip property at the evaluated points is used, matching the
hypothesis placed on abstract environments. -/
def decimalEnv : DateEnv where
  toISOString := fun ms => toString ms
  toLocaleString := fun ms => toString ms
  toUTCString := fun ms => toString ms
  toDateString := fun ms => toString ms
  toTimeString := fun ms => toString ms
  parseIso := decimalNat?

/-- The result object sent in reply to the initialization request; both
files build the identical literal (mcp-time-server.js lines 76-84,
ioehub-time.js lines 283-291). -/
def serverInfoResult : Json :=
  .obj [("serverInfo",
          .obj [("name", .str "IoEHubMcpTimeServer"),
                ("version", .str "1.0.0")]),
        ("capabilities", .obj [("timeProvider", .bool true)])]

/-- mcp-time-server.js lines 143-152: write the JSON-RPC result line
`jsonrpc/id/result` to stdout. -/
def Mcp.sendJsonRpcResponse (id : Option Json) (result : Json) :
    List Effect :=
  [Effect.respond id result]

/-- mcp-time-server.js lines 155-168: write the JSON-RPC error line to
stdout; the object literal always names a data key, which JSON.stringify
drops when the argument was undefined (every caller omits it). -/
def Mcp.sendJsonRpcError (id : Option Json) (code : Int) (message : String)
    (dataVal : Option Json) : List Effect :=
  [Effect.respondError id code message dataVal]

/-- mcp-time-server.js lines 88-101, handleGetTime: the payload object.
The clock is read twice: `timestamp` floors the first Date.now() sample
`t1` to seconds, the Date rendered by the five string fields is built
from `timestamp * 1000`, and the unix_ms field re-reads Date.now(),
giving the second sample `t2`. -/
def Mcp.getTimeResult (env : DateEnv) (t1 t2 : Nat) : Json :=
  let timestamp := t1 / 1000
  let dateMs := timestamp * 1000
  .obj [("unix_time", .num (timestamp : Int)),
        ("unix_ms", .num (t2 : Int)),
        ("human_readable", .str (env.toISOString dateMs)),
        ("formatted", .str (env.toLocaleString dateMs)),
        ("utc", .str (env.toUTCString dateMs)),
        ("date_only", .str (env.toDateString dateMs)),
        ("time_only", .str (env.toTimeString dateMs))]

/-- mcp-time-server.js lines 88-101, handleGetTime: send the payload. -/
def Mcp.handleGetTime (env : DateEnv) (t1 t2 : Nat) (id : Option Json) :
    List Effect :=
  Mcp.sendJsonRpcResponse id (Mcp.getTimeResult env t1 t2)

/-- mcp-time-server.js lines 104-115, handleShutdown: log, send the null
result, clear the keep-alive interval, and schedule process.exit(0)
after a 100 ms delay so the response can flush. -/
def Mcp.handleShutdown (id : Option Json) : List Effect :=
  Effect.log "[info] Shutting down..." ::
    Mcp.sendJsonRpcResponse id Json.null ++
      [Effect.stopKeepAlive, Effect.schedule 100 (.exitProcess 0)]

/-- mcp-time-server.js lines 67-85, handleInitialize: the very first
statement logs a template literal reading params.protocolVersion, so
when the request has no params (or params is null) the property read
throws before any effect; otherwise it logs, starts the keep-alive
interval, and sends the serverInfo and capabilities result. -/
def Mcp.handleInit (message : Json) : JsOutcome :=
  let id := message.get "id"
  match message.get "params" with
  | none => .threw []
  | some .null => .threw []
  | some _ =>
      .ok (Effect.log "[info] Initializing with protocol version: " ::
        Effect.startKeepAlive ::
          Mcp.sendJsonRpcResponse id serverInfoResult)

/-- mcp-time-server.js lines 60-63, the switch default: log a warning
naming the method and send the fixed -32601 error, whose message does
not mention the method name. -/
def Mcp.unsupported (id : Option Json) (method : Option Json) :
    List Effect :=
  Effect.log ("[warn] Method not supported: " ++ jsDisplayOpt method) ::
    Mcp.sendJsonRpcError id (-32601) "Method not found" none

/-- mcp-time-server.js lines 47-64, handleMessage: destructure method and
id (throwing on a null message) and switch on the method string;
undefined or non-string methods fall to the default, since there is no
missing-method check in this file. -/
def Mcp.handleMessage (env : DateEnv) (t1 t2 : Nat) (message : Json) :
    JsOutcome :=
  match message with
  | .null => .threw []
  | m =>
      let id := m.get "id"
      let method := m.get "method"
      match method with
      | some (.str s) =>
          if s = "initialize" then Mcp.handleInit m
          else if s = "getTime" then
            .ok (Mcp.handleGetTime env t1 t2 id)
          else if s = "shutdown" then .ok (Mcp.handleShutdown id)
          else .ok (Mcp.unsupported id method)
      | _ => .ok (Mcp.unsupported id method)

/-- mcp-time-server.js lines 23-37, the line handler: JSON.parse the
line (its outcome is the `parsed` argument, none when parsing threw),
log, and dispatch; the catch block around the whole body answers any
throw, from the parse or from a handler, with a -32700 Parse error whose
id is the literal null. -/
def Mcp.onLine (env : DateEnv) (t1 t2 : Nat) (line : String)
    (parsed : Option Json) : List Effect :=
  match parsed with
  | none =>
      Effect.log "[error] Failed to parse message: " ::
        Mcp.sendJsonRpcError (some .null) (-32700) "Parse error" none
  | some message =>
      Effect.log "[debug] Received message: " ::
        match Mcp.handleMessage env t1 t2 message with
        | .ok effs => effs
        | .threw effs =>
            effs ++
              (Effect.log "[error] Failed to parse message: " ::
                Mcp.sendJsonRpcError (some .null) (-32700) "Parse error"
                  none)

/-- mcp-time-server.js lines 40-44: the readline close handler, which
fires when stdin ends: log, clear the keep-alive interval, and call
process.exit(0) immediately. -/
def Mcp.onRlClose : List Effect :=
  [Effect.log "[info] Input stream closed, shutting down...",
   Effect.stopKeepAlive, Effect.exitNow 0]

/-- mcp-time-server.js lines 198-200: the stdin end handler, which only
logs that the process is kept alive. -/
def Mcp.onStdinEnd : List Effect :=
  [Effect.log "[warn] stdin ended, but keeping process alive for MCP protocol"]

/-- mcp-time-server.js lines 171-175: the SIGINT handler logs, stops the
keep-alive interval, and calls process.exit(0). -/
def Mcp.onSigint : List Effect :=
  [Effect.log "[info] Received SIGINT, shutting down...",
   Effect.stopKeepAlive, Effect.exitNow 0]

/-- mcp-time-server.js lines 177-181: the SIGTERM handler logs, stops
the keep-alive interval, and calls process.exit(0). -/
def Mcp.onSigterm : List Effect :=
  [Effect.log "[info] Received SIGTERM, shutting down...",
   Effect.stopKeepAlive, Effect.exitNow 0]

/-- ioehub-time.js lines 300-314, sendJsonRpcResponse: log the outgoing
line, then write the JSON-RPC result line to stdout. -/
def Ioehub.sendJsonRpcResponse (id : Option Json) (result : Json) :
    List Effect :=
  [Effect.log "Sending response: ", Effect.respond id result]

/-- ioehub-time.js lines 349-370, sendRpcError: build the error object,
attach the data field only when the argument is not undefined, log, and
write the line to stdout. -/
def Ioehub.sendRpcError (id : Option Json) (code : Int) (message : String)
    (dataVal : Option Json) : List Effect :=
  [Effect.log "Sending error: ", Effect.respondError id code message dataVal]

/-- ioehub-time.js lines 317-333, handleGetTime: the payload object.
The clock is read once into `now`; the payload floors it to seconds for
unix_time, reports it unchanged as unix_ms, and renders every string
field from a Date built from the same `now`. -/
def Ioehub.getTimeResult (env : DateEnv) (now : Nat) : Json :=
  let timestamp := now / 1000
  .obj [("unix_time", .num (timestamp : Int)),
        ("unix_ms", .num (now : Int)),
        ("human_readable", .str (env.toISOString now)),
        ("formatted", .str (env.toLocaleString now)),
        ("utc", .str (env.toUTCString now)),
        ("date_only", .str (env.toDateString now)),
        ("time_only", .str (env.toTimeString now))]

/-- ioehub-time.js lines 317-333, handleGetTime: log and send the
payload. -/
def Ioehub.handleGetTime (env : DateEnv) (now : Nat) (id : Option Json) :
    List Effect :=
  Effect.log "Providing time: " ::
    Ioehub.sendJsonRpcResponse id (Ioehub.getTimeResult env now)

/-- ioehub-time.js lines 336-341, handleShutdown: log that the server
will keep running and send the null result; no exit is performed or
scheduled. -/
def Ioehub.handleShutdown (id : Option Json) : List Effect :=
  Effect.log "Shutdown requested, but server will remain running" ::
    Ioehub.sendJsonRpcResponse id Json.null

/-- ioehub-time.js lines 278-297, handleInitialize: the params parameter
defaults to an empty object when the request had none, so an absent
params field is handled; a literal null params evades the default and
the protocolVersion read in the first log template throws.  On success:
two info logs, the serverInfo and capabilities response, and a 1000 ms
setTimeout that only logs. -/
def Ioehub.handleInit (id : Option Json) (params : Option Json) :
    JsOutcome :=
  match params with
  | some .null => .threw []
  | _ =>
      .ok (Effect.log "Initializing with protocol: " ::
        Effect.log "Client info: " ::
          Ioehub.sendJsonRpcResponse id serverInfoResult ++
            [Effect.schedule 1000 .logOnly])

/-- ioehub-time.js lines 271-274, the switch default: log a warning
naming the method and send a -32601 error whose message quotes the
method name. -/
def Ioehub.unsupported (id : Option Json) (method : Option Json) :
    List Effect :=
  Effect.log ("Unsupported method: " ++ jsDisplayOpt method) ::
    Ioehub.sendRpcError id (-32601)
      ("Method \x27" ++ jsDisplayOpt method ++ "\x27 not found") none

/-- ioehub-time.js lines 250-275, handleRpcMessage: reject a falsy or
non-object message with -32600 Invalid request (id literal null),
destructure id, method and params, reject a falsy method (undefined,
null, empty string, 0, false) with -32600 Method is required echoing the
request id, then switch on the method string; truthy non-string methods
fall to the -32601 default. -/
def Ioehub.handleRpcMessage (env : DateEnv) (now : Nat) (message : Json) :
    JsOutcome :=
  if !(jsTruthy message) || !(isJsObject message) then
    .ok (Ioehub.sendRpcError (some .null) (-32600) "Invalid request" none)
  else
    let id := message.get "id"
    let method := message.get "method"
    let params := message.get "params"
    if !(truthyOpt method) then
      .ok (Ioehub.sendRpcError id (-32600) "Method is required" none)
    else
      match method with
      | some (.str s) =>
          if s = "initialize" then Ioehub.handleInit id params
          else if s = "getTime" then
            .ok (Ioehub.handleGetTime env now id)
          else if s = "shutdown" then .ok (Ioehub.handleShutdown id)
          else .ok (Ioehub.unsupported id method)
      | _ => .ok (Ioehub.unsupported id method)

/-- The guard of ioehub-time.js line 156, `!line || line.trim() === ''`:
the string is empty, or trimming its whitespace leaves nothing.  A
string trims to the empty string exactly when every one of its
characters is whitespace, so the test is modelled as an all-whitespace
check (the empty string passes both disjuncts). -/
def Ioehub.isBlankLine (line : String) : Bool :=
  line == "" || line.data.all Char.isWhitespace

/-- ioehub-time.js lines 155-171, the line handler: return immediately
on an empty or whitespace-only line before any parsing; otherwise
JSON.parse the line (its outcome is the `parsed` argument, none when
parsing threw), log, reset the keep-alive timeout, and dispatch; the
catch around the body answers any throw with -32700 Parse error, id
literal null, and the exception text (the `emsg` argument) as the data
field. -/
def Ioehub.onLine (env : DateEnv) (now : Nat) (line : String)
    (parsed : Option Json) (emsg : String) : List Effect :=
  if Ioehub.isBlankLine line then []
  else
    match parsed with
    | none =>
        Effect.log "Failed to parse message: " ::
          Ioehub.sendRpcError (some .null) (-32700) "Parse error"
            (some (.str emsg))
    | some message =>
        Effect.log "Received: " :: Effect.resetKeepAlive ::
          match Ioehub.handleRpcMessage env now message with
          | .ok effs => effs
          | .threw effs =>
              effs ++
                (Effect.log "Failed to parse message: " ::
                  Ioehub.sendRpcError (some .null) (-32700) "Parse error"
                    (some (.str emsg)))

/-- ioehub-time.js lines 181-193, handleStdinEnd: once per process
(guarded by the stdinEndHandled flag) log and resume stdin; never an
exit. -/
def Ioehub.handleStdinEnd (alreadyHandled : Bool) : List Effect :=
  if alreadyHandled then []
  else
    [Effect.log "stdin ended, keeping process alive for MCP protocol",
     Effect.resumeStdin]

/-- ioehub-time.js lines 174-177: the readline close handler logs and
defers to handleStdinEnd; never an exit. -/
def Ioehub.onRlClose (alreadyHandled : Bool) : List Effect :=
  Effect.log "readline interface closed, but keeping server alive" ::
    Ioehub.handleStdinEnd alreadyHandled

/-- ioehub-time.js lines 115-118: the SIGINT handler only logs. -/
def Ioehub.onSigint : List Effect :=
  [Effect.log "Received SIGINT - ignoring and keeping server alive"]

/-- ioehub-time.js lines 120-123: the SIGTERM handler only logs. -/
def Ioehub.onSigterm : List Effect :=
  [Effect.log "Received SIGTERM - ignoring and keeping server alive"]

/-- C1 counterexample: a shutdown request with id 1 sent to the
ioehub-time.js dispatcher is answered with a null result but the effect
list contains no process exit and no scheduled exit, so shutdown does not
terminate that server and the claim as stated is false. -/
theorem c1_counterexample :
    Ioehub.handleRpcMessage decimalEnv 0
      (.obj [("id", .num 1), ("method", .str "shutdown")]) =
      .ok [Effect.log "Shutdown requested, but server will remain running",
           Effect.log "Sending response: ",
           Effect.respond (some (.num 1)) Json.null] ∧
    ([Effect.log "Shutdown requested, but server will remain running",
      Effect.log "Sending response: ",
      Effect.respond (some (.num 1)) Json.null].filter
        Effect.isTermination) = [] :=
  ⟨rfl, rfl⟩

/-- C1 (amended): for every shutdown request carrying id X, both servers
first emit a response with id X and result null; mcp-time-server.js then
clears its keep-alive interval and schedules process exit with code 0
after a 100 ms flush delay, while ioehub-time.js deliberately keeps the
process alive, emitting no termination effect at all. -/
theorem c1_amended (env : DateEnv) (t1 t2 now : Nat) (i : Json) :
    Mcp.handleMessage env t1 t2
        (.obj [("id", i), ("method", .str "shutdown")]) =
      .ok [Effect.log "[info] Shutting down...",
           Effect.respond (some i) Json.null,
           Effect.stopKeepAlive, Effect.schedule 100 (.exitProcess 0)] ∧
    Ioehub.handleRpcMessage env now
        (.obj [("id", i), ("method", .str "shutdown")]) =
      .ok [Effect.log "Shutdown requested, but server will remain running",
           Effect.log "Sending response: ",
           Effect.respond (some i) Json.null] ∧
    ([Effect.log "Shutdown requested, but server will remain running",
      Effect.log "Sending response: ",
      Effect.respond (some i) Json.null].filter Effect.isTermination) = [] :=
  ⟨rfl, rfl, rfl⟩

/-- C2: evaluation at the failing input.  When the input stream closes,
the readline close handler of mcp-time-server.js calls process.exit(0),
terminating the process, although the stdin end handler of the very same
file only logs that the process is being kept alive - the code
contradicts its own stated intent.  The ioehub-time.js handlers for the
same event contain no termination effect, matching the claim. -/
theorem c2_code_bug_eval :
    Mcp.onRlClose =
      [Effect.log "[info] Input stream closed, shutting down...",
       Effect.stopKeepAlive, Effect.exitNow 0] ∧
    Mcp.onRlClose.filter Effect.isTermination = [Effect.exitNow 0] ∧
    Mcp.onStdinEnd =
      [Effect.log
        "[warn] stdin ended, but keeping process alive for MCP protocol"] ∧
    (∀ b : Bool, (Ioehub.onRlClose b).filter Effect.isTermination = [] ∧
      (Ioehub.handleStdinEnd b).filter Effect.isTermination = []) := by
  refine ⟨rfl, rfl, rfl, fun b => ?_⟩
  cases b <;> exact ⟨rfl, rfl⟩

/-- C3 counterexample: in mcp-time-server.js the two Date.now() samples
of a getTime call can straddle a second boundary; at first sample 999 ms
and second sample 1000 ms the payload has unix_time 0 and unix_ms 1000,
whose floored quotient by 1000 is 1, so floor(unix_ms / 1000) differs
from unix_time and the claim as stated is false. -/
theorem c3_counterexample :
    (Mcp.getTimeResult decimalEnv 999 1000).get "unix_time" =
      some (.num 0) ∧
    (Mcp.getTimeResult decimalEnv 999 1000).get "unix_ms" =
      some (.num 1000) ∧
    (1000 : Nat) / 1000 = 1 ∧ (0 : Int) ≠ 1 :=
  ⟨rfl, rfl, rfl, by decide⟩

/-- C3 (amended): the identity floor(unix_ms / 1000) = unix_time holds
unconditionally for ioehub-time.js, which samples the clock once; for
mcp-time-server.js, which samples Date.now() twice, it holds exactly when
the two samples fall in the same second. -/
theorem c3_amended (env : DateEnv) (now t1 t2 : Nat) :
    ((Ioehub.getTimeResult env now).get "unix_time" =
        some (.num ((now / 1000 : Nat) : Int)) ∧
      (Ioehub.getTimeResult env now).get "unix_ms" =
        some (.num (now : Int))) ∧
    (t1 / 1000 = t2 / 1000 →
      (Mcp.getTimeResult env t1 t2).get "unix_time" =
          some (.num ((t2 / 1000 : Nat) : Int)) ∧
        (Mcp.getTimeResult env t1 t2).get "unix_ms" =
          some (.num (t2 : Int))) := by
  refine ⟨⟨rfl, rfl⟩, fun h => ⟨?_, rfl⟩⟩
  show some (Json.num ((t1 / 1000 : Nat) : Int)) =
    some (Json.num ((t2 / 1000 : Nat) : Int))
  rw [h]

/-- C3 witness: the amended theorem applied at samples 2500 and 2999,
which lie in the same second. -/
theorem c3_amended_witness :
    (2500 : Nat) / 1000 = 2999 / 1000 ∧
    ((Mcp.getTimeResult decimalEnv 2500 2999).get "unix_time" =
        some (.num ((2999 / 1000 : Nat) : Int)) ∧
      (Mcp.getTimeResult decimalEnv 2500 2999).get "unix_ms" =
        some (.num (2999 : Int))) :=
  ⟨by decide, (c3_amended decimalEnv 0 2500 2999).2 (by decide)⟩

/-- C4 counterexample: in mcp-time-server.js the Date rendered into
human_readable is built from the first sample floored to whole seconds
while unix_ms re-reads the clock; even with the clock frozen at 1500 ms
(both samples equal), human_readable parses back to 1000 while unix_ms
is 1500, so the seven fields are not mutually consistent and the claim
as stated is false. -/
theorem c4_counterexample :
    (Mcp.getTimeResult decimalEnv 1500 1500).get "human_readable" =
      some (.str "1000") ∧
    decimalEnv.parseIso "1000" = some 1000 ∧
    (Mcp.getTimeResult decimalEnv 1500 1500).get "unix_ms" =
      some (.num 1500) ∧
    (1000 : Nat) ≠ 1500 :=
  ⟨rfl, rfl, rfl, by decide⟩

/-- C4 (amended): in ioehub-time.js all seven payload fields derive from
the single sampled instant - human_readable is the ISO rendering of the
very same millisecond count reported as unix_ms (so it parses back to
unix_ms), unix_time is its floored seconds, and the remaining four
strings render the same instant.  In mcp-time-server.js, by contrast,
human_readable renders the first sample truncated to whole seconds while
unix_ms reports a second, later sample. -/
theorem c4_amended (env : DateEnv) (now t1 t2 : Nat)
    (hparse : env.parseIso (env.toISOString now) = some now) :
    ((Ioehub.getTimeResult env now).get "human_readable" =
        some (.str (env.toISOString now)) ∧
      env.parseIso (env.toISOString now) = some now ∧
      (Ioehub.getTimeResult env now).get "unix_ms" =
        some (.num (now : Int)) ∧
      (Ioehub.getTimeResult env now).get "unix_time" =
        some (.num ((now / 1000 : Nat) : Int)) ∧
      (Ioehub.getTimeResult env now).get "formatted" =
        some (.str (env.toLocaleString now)) ∧
      (Ioehub.getTimeResult env now).get "utc" =
        some (.str (env.toUTCString now)) ∧
      (Ioehub.getTimeResult env now).get "date_only" =
        some (.str (env.toDateString now)) ∧
      (Ioehub.getTimeResult env now).get "time_only" =
        some (.str (env.toTimeString now))) ∧
    (Mcp.getTimeResult env t1 t2).get "human_readable" =
      some (.str (env.toISOString (t1 / 1000 * 1000))) ∧
    (Mcp.getTimeResult env t1 t2).get "unix_ms" =
      some (.num (t2 : Int)) :=
  ⟨⟨rfl, hparse, rfl, rfl, rfl, rfl, rfl, rfl⟩, rfl, rfl⟩

/-- C4 witness: the amended theorem applied at instant 1234 with the
decimal environment, whose parse inverts its rendering there. -/
theorem c4_amended_witness :
    decimalEnv.parseIso (decimalEnv.toISOString 1234) = some 1234 ∧
    ((Ioehub.getTimeResult decimalEnv 1234).get "human_readable" =
        some (.str (decimalEnv.toISOString 1234)) ∧
      (Ioehub.getTimeResult decimalEnv 1234).get "unix_ms" =
        some (.num (1234 : Int))) :=
  ⟨rfl,
   ⟨(c4_amended decimalEnv 1234 0 0 rfl).1.1,
    (c4_amended decimalEnv 1234 0 0 rfl).1.2.2.1⟩⟩

/-- C5 counterexample: the SIGINT handler of mcp-time-server.js logs,
stops the keep-alive interval, and then calls process.exit(0), so the
process does exit as a consequence of the signal and the claim as stated
is false. -/
theorem c5_counterexample :
    Mcp.onSigint =
      [Effect.log "[info] Received SIGINT, shutting down...",
       Effect.stopKeepAlive, Effect.exitNow 0] ∧
    Mcp.onSigint.filter Effect.isTermination = [Effect.exitNow 0] :=
  ⟨rfl, rfl⟩

/-- C5 (amended): ioehub-time.js logs SIGINT and SIGTERM and does nothing
else - its signal handlers contain no termination effect; the handlers of
mcp-time-server.js log, stop the keep-alive interval, and exit with
code 0. -/
theorem c5_amended :
    Ioehub.onSigint =
      [Effect.log "Received SIGINT - ignoring and keeping server alive"] ∧
    Ioehub.onSigterm =
      [Effect.log "Received SIGTERM - ignoring and keeping server alive"] ∧
    Ioehub.onSigint.filter Effect.isTermination = [] ∧
    Ioehub.onSigterm.filter Effect.isTermination = [] ∧
    Mcp.onSigint.filter Effect.isTermination = [Effect.exitNow 0] ∧
    Mcp.onSigterm.filter Effect.isTermination = [Effect.exitNow 0] :=
  ⟨rfl, rfl, rfl, rfl, rfl, rfl⟩

/-- C6 counterexample: mcp-time-server.js has no missing-method check, so
the structurally valid request with id 7 and no method field falls to
the switch default and is answered with code -32601 and the message
Method not found, not with -32600 Method is required; the claim as
stated is false. -/
theorem c6_counterexample :
    Mcp.handleMessage decimalEnv 0 0 (.obj [("id", .num 7)]) =
      .ok [Effect.log "[warn] Method not supported: undefined",
           Effect.respondError (some (.num 7)) (-32601) "Method not found"
             none] ∧
    (-32601 : Int) ≠ -32600 ∧
    "Method not found" ≠ "Method is required" :=
  ⟨rfl, by decide, by decide⟩

/-- C6 (amended): in ioehub-time.js a request whose method field is
missing or otherwise falsy (for example null) is answered with -32600
and the message Method is required, echoing the request id when present
and omitting the id field from the response when the request had none; a
truthy non-string method such as the number 5 instead falls to the
-32601 default.  mcp-time-server.js has no missing-method check and
answers a missing method with -32601 Method not found. -/
theorem c6_amended (env : DateEnv) (now t1 t2 : Nat) (i : Json) :
    Ioehub.handleRpcMessage env now (.obj [("id", i)]) =
      .ok [Effect.log "Sending error: ",
           Effect.respondError (some i) (-32600) "Method is required" none] ∧
    Ioehub.handleRpcMessage env now (.obj []) =
      .ok [Effect.log "Sending error: ",
           Effect.respondError none (-32600) "Method is required" none] ∧
    Ioehub.handleRpcMessage env now
        (.obj [("id", i), ("method", .null)]) =
      .ok [Effect.log "Sending error: ",
           Effect.respondError (some i) (-32600) "Method is required" none] ∧
    Ioehub.handleRpcMessage env now
        (.obj [("id", i), ("method", .num 5)]) =
      .ok [Effect.log "Unsupported method: 5",
           Effect.log "Sending error: ",
           Effect.respondError (some i) (-32601)
             "Method \x275\x27 not found" none] ∧
    Mcp.handleMessage env t1 t2 (.obj [("id", i)]) =
      .ok [Effect.log "[warn] Method not supported: undefined",
           Effect.respondError (some i) (-32601) "Method not found" none] :=
  ⟨rfl, rfl, rfl, rfl, rfl⟩

/-- C7 counterexample: fed a request with id 1, method initialize and no
params field, the mcp-time-server.js line handler produces a -32700
Parse error response with id null and no result response at all, because
reading params.protocolVersion throws inside the handler; the claim as
stated is false for this file. -/
theorem c7_counterexample :
    Mcp.onLine decimalEnv 0 0 "\x7b\"id\":1,\"method\":\"initialize\"\x7d"
      (some (.obj [("id", .num 1), ("method", .str "initialize")])) =
      [Effect.log "[debug] Received message: ",
       Effect.log "[error] Failed to parse message: ",
       Effect.respondError (some Json.null) (-32700) "Parse error" none] ∧
    ([Effect.log "[debug] Received message: ",
      Effect.log "[error] Failed to parse message: ",
      Effect.respondError (some Json.null) (-32700) "Parse error"
        none].filter Effect.isResult) = [] :=
  ⟨rfl, rfl⟩

/-- C7 (amended): ioehub-time.js defaults an absent params field to an
empty object and answers every such request with the serverInfo and
capabilities result carrying timeProvider true; mcp-time-server.js reads
params.protocolVersion unconditionally, so the same request throws in
the handler and its line handler answers -32700 Parse error with id null
instead of a result. -/
theorem c7_amended (env : DateEnv) (now t1 t2 : Nat) (i : Json)
    (line : String) :
    Ioehub.handleRpcMessage env now
        (.obj [("id", i), ("method", .str "initialize")]) =
      .ok [Effect.log "Initializing with protocol: ",
           Effect.log "Client info: ",
           Effect.log "Sending response: ",
           Effect.respond (some i) serverInfoResult,
           Effect.schedule 1000 .logOnly] ∧
    serverInfoResult.get "capabilities" =
      some (.obj [("timeProvider", .bool true)]) ∧
    serverInfoResult.get "serverInfo" =
      some (.obj [("name", .str "IoEHubMcpTimeServer"),
                  ("version", .str "1.0.0")]) ∧
    Mcp.handleMessage env t1 t2
        (.obj [("id", i), ("method", .str "initialize")]) = .threw [] ∧
    Mcp.onLine env t1 t2 line
        (some (.obj [("id", i), ("method", .str "initialize")])) =
      [Effect.log "[debug] Received message: ",
       Effect.log "[error] Failed to parse message: ",
       Effect.respondError (some Json.null) (-32700) "Parse error" none] :=
  ⟨rfl, rfl, rfl, rfl, rfl⟩

/-- C8 counterexample: mcp-time-server.js answers the unknown method
frobnicate with -32601 and the fixed message Method not found, which
does not contain the method name, so the claim as stated is false for
this file. -/
theorem c8_counterexample :
    Mcp.handleMessage decimalEnv 0 0
      (.obj [("id", .num 1), ("method", .str "frobnicate")]) =
      .ok [Effect.log "[warn] Method not supported: frobnicate",
           Effect.respondError (some (.num 1)) (-32601) "Method not found"
             none] ∧
    ¬ List.IsInfix "frobnicate".data "Method not found".data :=
  ⟨rfl, by decide⟩

/-- C8 (amended): for every nonempty method string other than the three
supported ones, ioehub-time.js answers -32601 with a message that quotes
the method name (the name occurs in the message); the empty-string
method is falsy there and gets -32600 Method is required instead; and
mcp-time-server.js answers -32601 with the fixed message Method not
found, which does not identify the method. -/
theorem c8_amended (env : DateEnv) (now t1 t2 : Nat) (i : Json) (m : String)
    (hm0 : m ≠ "") (hm1 : m ≠ "initialize") (hm2 : m ≠ "getTime")
    (hm3 : m ≠ "shutdown") :
    Ioehub.handleRpcMessage env now
        (.obj [("id", i), ("method", .str m)]) =
      .ok [Effect.log ("Unsupported method: " ++ m),
           Effect.log "Sending error: ",
           Effect.respondError (some i) (-32601)
             ("Method \x27" ++ m ++ "\x27 not found") none] ∧
    List.IsInfix m.data ("Method \x27" ++ m ++ "\x27 not found").data ∧
    Ioehub.handleRpcMessage env now
        (.obj [("id", i), ("method", .str "")]) =
      .ok [Effect.log "Sending error: ",
           Effect.respondError (some i) (-32600) "Method is required" none] ∧
    Mcp.handleMessage env t1 t2
        (.obj [("id", i), ("method", .str m)]) =
      .ok [Effect.log ("[warn] Method not supported: " ++ m),
           Effect.respondError (some i) (-32601) "Method not found" none] := by
  have eio : Ioehub.handleRpcMessage env now
      (.obj [("id", i), ("method", .str m)]) =
      (if !(m != "") then
        .ok (Ioehub.sendRpcError (some i) (-32600) "Method is required" none)
       else if m = "initialize" then Ioehub.handleInit (some i) none
       else if m = "getTime" then .ok (Ioehub.handleGetTime env now (some i))
       else if m = "shutdown" then .ok (Ioehub.handleShutdown (some i))
       else .ok (Ioehub.unsupported (some i) (some (.str m)))) := rfl
  have emcp : Mcp.handleMessage env t1 t2
      (.obj [("id", i), ("method", .str m)]) =
      (if m = "initialize" then
        Mcp.handleInit (.obj [("id", i), ("method", .str m)])
       else if m = "getTime" then
        .ok (Mcp.handleGetTime env t1 t2 (some i))
       else if m = "shutdown" then .ok (Mcp.handleShutdown (some i))
       else .ok (Mcp.unsupported (some i) (some (.str m)))) := rfl
  have hT : (m != "") = true := by simpa using hm0
  refine ⟨?_, ?_, rfl, ?_⟩
  · rw [eio, hT]
    simp only [Bool.not_true, Bool.false_eq_true, if_false]
    rw [if_neg hm1, if_neg hm2, if_neg hm3]
    rfl
  · exact ⟨"Method \x27".data, "\x27 not found".data,
      by simp [String.data_append]⟩
  · rw [emcp, if_neg hm1, if_neg hm2, if_neg hm3]
    rfl

/-- C8 witness: the amended theorem applied at the method frobnicate
with id 1. -/
theorem c8_amended_witness :
    ("frobnicate" ≠ "" ∧ "frobnicate" ≠ "initialize" ∧
      "frobnicate" ≠ "getTime" ∧ "frobnicate" ≠ "shutdown") ∧
    (Ioehub.handleRpcMessage decimalEnv 0
        (.obj [("id", .num 1), ("method", .str "frobnicate")]) =
      .ok [Effect.log ("Unsupported method: " ++ "frobnicate"),
           Effect.log "Sending error: ",
           Effect.respondError (some (.num 1)) (-32601)
             ("Method \x27" ++ "frobnicate" ++ "\x27 not found") none] ∧
    List.IsInfix "frobnicate".data
      ("Method \x27" ++ "frobnicate" ++ "\x27 not found").data) := by
  have h := c8_amended decimalEnv 0 0 0 (.num 1) "frobnicate"
    (by decide) (by decide) (by decide) (by decide)
  exact ⟨⟨by decide, by decide, by decide, by decide⟩, h.1, h.2.1⟩

/-- C9: every nonblank line whose JSON.parse fails is answered by both
servers with code -32700, message Parse error, and the literal null id -
never any recovered id - with ioehub-time.js additionally attaching the
exception text as the data field. -/
theorem c9_parse_error (env : DateEnv) (now t1 t2 : Nat)
    (line emsg : String) (hline : Ioehub.isBlankLine line = false) :
    Ioehub.onLine env now line none emsg =
      [Effect.log "Failed to parse message: ",
       Effect.log "Sending error: ",
       Effect.respondError (some Json.null) (-32700) "Parse error"
         (some (.str emsg))] ∧
    Mcp.onLine env t1 t2 line none =
      [Effect.log "[error] Failed to parse message: ",
       Effect.respondError (some Json.null) (-32700) "Parse error" none] := by
  refine ⟨?_, rfl⟩
  simp [Ioehub.onLine, Ioehub.sendRpcError, hline]

/-- C9 witness: the theorem applied to the nonblank unparseable line
oops. -/
theorem c9_parse_error_witness :
    Ioehub.isBlankLine "oops" = false ∧
    (Ioehub.onLine decimalEnv 0 "oops" none "Unexpected token" =
      [Effect.log "Failed to parse message: ",
       Effect.log "Sending error: ",
       Effect.respondError (some Json.null) (-32700) "Parse error"
         (some (.str "Unexpected token"))] ∧
    Mcp.onLine decimalEnv 0 0 "oops" none =
      [Effect.log "[error] Failed to parse message: ",
       Effect.respondError (some Json.null) (-32700) "Parse error" none]) :=
  ⟨rfl, c9_parse_error decimalEnv 0 0 0 "oops" "Unexpected token" rfl⟩

/-- C10 counterexample: a line holding a single space is not skipped by
mcp-time-server.js - JSON.parse throws on it, and the server emits a
-32700 Parse error response rather than nothing, so the claim as stated
is false for this file. -/
theorem c10_counterexample :
    Mcp.onLine decimalEnv 0 0 " " none =
      [Effect.log "[error] Failed to parse message: ",
       Effect.respondError (some Json.null) (-32700) "Parse error" none] ∧
    [Effect.log "[error] Failed to parse message: ",
     Effect.respondError (some Json.null) (-32700) "Parse error" none] ≠
      ([] : List Effect) :=
  ⟨rfl, by simp⟩

/-- C10 (amended): ioehub-time.js skips every empty or whitespace-only
line before parsing, emitting nothing; mcp-time-server.js has no such
guard, and a whitespace-only line (which JSON.parse rejects) elicits a
-32700 Parse error response with id null. -/
theorem c10_amended (env : DateEnv) (now t1 t2 : Nat) (line : String)
    (parsed : Option Json) (emsg : String)
    (hblank : Ioehub.isBlankLine line = true) :
    Ioehub.onLine env now line parsed emsg = [] ∧
    Mcp.onLine env t1 t2 " " none =
      [Effect.log "[error] Failed to parse message: ",
       Effect.respondError (some Json.null) (-32700) "Parse error" none] := by
  refine ⟨?_, rfl⟩
  simp [Ioehub.onLine, hblank]

/-- C10 witness: the amended theorem applied to the single-space line. -/
theorem c10_amended_witness :
    Ioehub.isBlankLine " " = true ∧
    (Ioehub.onLine decimalEnv 0 " " none "x" = [] ∧
    Mcp.onLine decimalEnv 0 0 " " none =
      [Effect.log "[error] Failed to parse message: ",
       Effect.respondError (some Json.null) (-32700) "Parse error" none]) :=
  ⟨rfl, c10_amended decimalEnv 0 0 0 " " none "x" rfl⟩
